import Mathlib

/-!
Shallow embedding of the deepfake-analyzer client of this repository:
the service module `deepfakeService` (pickImage, captureImage,
convertToBase64, analyzeImage, deleteImage, checkHealth) and the
analyzer-screen handlers (handlePickImage, handleCaptureImage,
handleAnalyze, handleClear).

External effects (fetch, the filesystem, the image picker) are modelled
as explicit inputs: a fetch is a `FetchResult` (transport failure, or an
HTTP status together with the outcome of decoding the body as JSON), the
filesystem read/delete operations are function parameters, and the picker
outcome is a `PickerResult`.  Each JavaScript function becomes a total
Lean function over those inputs; a thrown JS error becomes an explicit
error/outcome constructor.
-/

/-- JSON values, as produced by `response.json()`.  Numbers are modelled
as integers (no claim touches non-integral numeric bodies). -/
inductive Json where
  | null : Json
  | bool (b : Bool) : Json
  | num (n : Int) : Json
  | str (s : String) : Json
  | arr (elems : List Json) : Json
  | obj (fields : List (String × Json)) : Json

/-- Property lookup on a list of object fields (`errorData.detail`,
`data.status`). -/
def lookupField : List (String × Json) → String → Option Json
  | [], _ => none
  | (k, v) :: rest, key => if k == key then some v else lookupField rest key

/-- JS property access `j.key`: defined on objects, `undefined` (here
`none`) on booleans, numbers, strings and arrays.  Access on `null`
throws in JS; callers that can reach it handle that case explicitly. -/
def Json.getField : Json → String → Option Json
  | .obj fields, key => lookupField fields key
  | _, _ => none

/-- JS truthiness of a decoded JSON value (`null`, `false`, `0` and `""`
are falsy; objects and arrays are always truthy). -/
def Json.truthy : Json → Bool
  | .null => false
  | .bool b => b
  | .num n => n != 0
  | .str s => s != ""
  | .arr _ => true
  | .obj _ => true

/-- Result of a `fetch` call: either the promise rejected (transport
error, message `e`), or a response arrived with an HTTP `status` and a
body whose decoding by `response.json()` either produced a JSON value or
rejected (`none`). -/
inductive FetchResult where
  | fail (e : String) : FetchResult
  | success (status : Nat) (body : Option Json) : FetchResult

/-- `response.ok` of the Fetch API: status in the range 200–299. -/
def statusOk (status : Nat) : Bool :=
  200 ≤ status && status ≤ 299

/-- `deepfakeService.checkHealth`: GET `API_BASE_URL ++ "/api/health"`;
`true` only when the transport succeeded, `response.ok`, the body decoded,
and `data.status === 'healthy'`.  Every throwing path (fetch rejection,
`response.json()` rejection, property access on a `null` body) is caught
and yields `false`. -/
def checkHealth (resp : FetchResult) : Bool :=
  match resp with
  | .fail _ => false
  | .success status body =>
    if statusOk status then
      match body with
      | none => false
      | some data =>
        match data.getField "status" with
        | some (.str s) => s == "healthy"
        | _ => false
    else false

mutual
/-- JS string conversion `String(v)` of a decoded JSON value, as applied
by `new Error(v)` to a non-string argument: `null`/booleans/numbers print
themselves, arrays join their elements with commas (a `null` element
prints as the empty string), plain objects print `[object Object]`. -/
def Json.jsToString : Json → String
  | .null => "null"
  | .bool true => "true"
  | .bool false => "false"
  | .num n => toString n
  | .str s => s
  | .arr elems => String.intercalate "," (jsToStringElems elems)
  | .obj _ => "[object Object]"

/-- Elementwise stringification used by `Array.prototype.toString`. -/
def jsToStringElems : List Json → List String
  | [] => []
  | j :: rest =>
    (match j with
     | .null => ""
     | j2 => Json.jsToString j2) :: jsToStringElems rest
end

/-- `deepfakeService.convertToBase64`: `FileSystem.readAsStringAsync` with
base64 encoding; the try/catch logs and rethrows, so the outcome is the
read outcome itself.  The filesystem is the parameter `fsRead`, mapping a
URI to the base64 contents or a rejection message. -/
def convertToBase64 (fsRead : String → Except String String) (uri : String) :
    Except String String :=
  fsRead uri

/-- The JSON request body `{ image_base64, mime_type }` that
`deepfakeService.analyzeImage` POSTs to `/api/analyze-deepfake`. -/
structure AnalyzeRequest where
  image_base64 : String
  mime_type : String
deriving DecidableEq

/-- How a call of `deepfakeService.analyzeImage` ends.  Every rejection of
the inner awaits is caught by the outer try/catch, logged and rethrown, so
each constructor below is a distinct exit of the source function. -/
inductive AnalyzeOutcome where
  /-- the 2xx body decoded; it is returned as-is -/
  | success (result : Json) : AnalyzeOutcome
  /-- `throw new Error(message)` from the `!response.ok` branch -/
  | failure (message : String) : AnalyzeOutcome
  /-- `errorData.detail` threw a TypeError because the non-2xx body decoded
  to JSON `null`; rethrown by the outer catch -/
  | typeError : AnalyzeOutcome
  /-- `response.json()` rejected on a 2xx response; rethrown -/
  | jsonParseFailure : AnalyzeOutcome
  /-- `convertToBase64` rethrew a filesystem read error -/
  | ioFailure (e : String) : AnalyzeOutcome
  /-- `fetch` itself rejected (transport error); rethrown -/
  | fetchFailure (e : String) : AnalyzeOutcome

/-- The message of `new Error(errorData.detail || ...)` in the
`!response.ok` branch, for a decoded error body that is not `null`:
a truthy `detail` is stringified, a missing or falsy `detail` falls back
to the generic message carrying the HTTP status. -/
def analyzeErrorMessage (status : Nat) (errorData : Json) : String :=
  match errorData.getField "detail" with
  | some v => if v.truthy then v.jsToString else "Analysis failed: " ++ toString status
  | none => "Analysis failed: " ++ toString status

/-- `deepfakeService.analyzeImage imageUri`: converts the file at
`imageUri` to base64, POSTs `{ image_base64, mime_type: 'image/jpeg' }`
to `/api/analyze-deepfake`, and decodes the response.  Returns the request
that was sent (`none` when the read failed before the POST) together with
the outcome.  On `!response.ok` the error body is decoded with a fallback
to `{}` (`.catch(() => ({}))`) and `errorData.detail` is consulted; on a
body decoding to JSON `null` that property access itself throws. -/
def analyzeImage (fsRead : String → Except String String)
    (imageUri : String) (resp : FetchResult) :
    Option AnalyzeRequest × AnalyzeOutcome :=
  match convertToBase64 fsRead imageUri with
  | .error e => (none, .ioFailure e)
  | .ok base64Image =>
    let req : AnalyzeRequest :=
      { image_base64 := base64Image, mime_type := "image/jpeg" }
    match resp with
    | .fail e => (some req, .fetchFailure e)
    | .success status body =>
      if statusOk status then
        match body with
        | some result => (some req, .success result)
        | none => (some req, .jsonParseFailure)
      else
        match body.getD (Json.obj []) with
        | .null => (some req, .typeError)
        | errorData => (some req, .failure (analyzeErrorMessage status errorData))

/-- `deepfakeService.deleteImage uri`: when `uri` is truthy and starts
with `file://`, `FileSystem.deleteAsync` is invoked on it; any rejection
is caught and only logged.  The filesystem is the parameter `fsDelete`.
Returns the list of URIs on which deletion was attempted together with
what the caller observes: always `Except.ok ()`, since the catch never
rethrows. -/
def deleteImage (fsDelete : String → Except String Unit) (uri : String) :
    List String × Except String Unit :=
  if !(uri == "") && uri.startsWith "file://" then
    ([uri],
     match fsDelete uri with
     | .ok _ => .ok ()
     | .error _ => .ok ())
  else
    ([], .ok ())

/-- An image reference as returned by the Expo picker (`result.assets[0]`)
and held in UI state (`selectedImage`). -/
structure ImageRef where
  uri : String
  width : Option Int := none
  height : Option Int := none
  mimeType : Option String := none
deriving DecidableEq

/-- Outcome of a platform permission request (`status !== 'granted'` is
the only distinction the source makes). -/
inductive PermissionStatus where
  | granted : PermissionStatus
  | denied : PermissionStatus
deriving DecidableEq

/-- What `launchImageLibraryAsync` / `launchCameraAsync` resolve with:
a `canceled` flag and the selected assets. -/
structure PickerResult where
  canceled : Bool
  assets : List ImageRef
deriving DecidableEq

/-- `deepfakeService.pickImage`: request media-library permission (throw
when not granted), launch the library picker, return the first asset when
the user did not cancel and one exists (`!result.canceled &&
result.assets[0]`, an asset object being always truthy), else `null`
(`none`).  The catch logs and rethrows, so it leaves outcomes as they
are. -/
def pickImage (perm : PermissionStatus) (result : PickerResult) :
    Except String (Option ImageRef) :=
  match perm with
  | .denied => .error "Sorry, we need camera roll permissions to analyze images."
  | .granted =>
    if !result.canceled then
      match result.assets.head? with
      | some asset => .ok (some asset)
      | none => .ok none
    else .ok none

/-- `deepfakeService.captureImage`: same shape as `pickImage` with the
camera permission and `launchCameraAsync`. -/
def captureImage (perm : PermissionStatus) (result : PickerResult) :
    Except String (Option ImageRef) :=
  match perm with
  | .denied => .error "Sorry, we need camera permissions to capture images."
  | .granted =>
    if !result.canceled then
      match result.assets.head? with
      | some asset => .ok (some asset)
      | none => .ok none
    else .ok none

/-- The local state of `DeepfakeAnalyzerScreen` (the four `useState`
hooks). -/
structure UIState where
  selectedImage : Option ImageRef
  isAnalyzing : Bool
  analysisResult : Option Json
  apiAvailable : Bool

/-- Observable actions a handler performs besides updating state, in
program order. -/
inductive UIEvent where
  /-- `Alert.alert('No Image', ...)` -/
  | alertNoImage : UIEvent
  /-- `deepfakeService.checkHealth()` invoked -/
  | healthCheckCalled : UIEvent
  /-- `Alert.alert('Service Unavailable', ...)` -/
  | alertServiceUnavailable : UIEvent
  /-- `deepfakeService.analyzeImage(uri)` invoked -/
  | analyzeCalled (uri : String) : UIEvent
  /-- `setTimeout(() => deepfakeService.deleteImage(uri), delayMs)` -/
  | scheduledDelete (uri : String) (delayMs : Nat) : UIEvent
  /-- `Alert.alert('Analysis Failed', ...)` -/
  | alertAnalysisFailed : UIEvent
  /-- `deepfakeService.deleteImage(uri)` invoked immediately -/
  | deleteCalled (uri : String) : UIEvent
  /-- `Alert.alert('Error', ...)` in the pick/capture handlers -/
  | alertError : UIEvent
deriving DecidableEq

/-- The external world as `handleAnalyze` sees it: the health-endpoint
fetch outcome, the filesystem read, and the analyze-endpoint fetch
outcome. -/
structure Env where
  healthResp : FetchResult
  readFile : String → Except String String
  analyzeResp : FetchResult

/-- `handlePickImage`: on a thrown pick error, alert; on `null`, nothing;
on an image, set `selectedImage` to it and reset `analysisResult`. -/
def handlePickImage (pickOutcome : Except String (Option ImageRef))
    (s : UIState) : UIState × List UIEvent :=
  match pickOutcome with
  | .error _ => (s, [.alertError])
  | .ok none => (s, [])
  | .ok (some image) =>
    ({ s with selectedImage := some image, analysisResult := none }, [])

/-- `handleCaptureImage`: identical handling of the capture outcome. -/
def handleCaptureImage (captureOutcome : Except String (Option ImageRef))
    (s : UIState) : UIState × List UIEvent :=
  match captureOutcome with
  | .error _ => (s, [.alertError])
  | .ok none => (s, [])
  | .ok (some image) =>
    ({ s with selectedImage := some image, analysisResult := none }, [])

/-- `handleAnalyze`: abort with an alert when no image is selected; else
set `isAnalyzing`, clear `analysisResult`, run `checkHealth` and record it
in `apiAvailable`; when unhealthy, alert "Service Unavailable" and stop;
else call `analyzeImage(selectedImage.uri)`; on success store the result
and schedule `deleteImage(selectedImage.uri)` after 5000 ms; on any throw
alert "Analysis Failed".  The `finally` clears `isAnalyzing` on every
path. -/
def handleAnalyze (env : Env) (s : UIState) : UIState × List UIEvent :=
  match s.selectedImage with
  | none => (s, [.alertNoImage])
  | some img =>
    let s1 : UIState := { s with isAnalyzing := true, analysisResult := none }
    let isHealthy := checkHealth env.healthResp
    let s2 : UIState := { s1 with apiAvailable := isHealthy }
    if isHealthy then
      match (analyzeImage env.readFile img.uri env.analyzeResp).2 with
      | .success result =>
        ({ s2 with analysisResult := some result, isAnalyzing := false },
         [.healthCheckCalled, .analyzeCalled img.uri, .scheduledDelete img.uri 5000])
      | _ =>
        ({ s2 with isAnalyzing := false },
         [.healthCheckCalled, .analyzeCalled img.uri, .alertAnalysisFailed])
    else
      ({ s2 with isAnalyzing := false },
       [.healthCheckCalled, .alertServiceUnavailable])

/-- The `onPress` of the destructive "Clear" choice inside `handleClear`'s
confirmation alert: call `deleteImage` on the selected image's URI when one
is selected, then null out `selectedImage` and `analysisResult`. -/
def handleClearConfirm (s : UIState) : UIState × List UIEvent :=
  match s.selectedImage with
  | some img =>
    ({ s with selectedImage := none, analysisResult := none },
     [.deleteCalled img.uri])
  | none =>
    ({ s with selectedImage := none, analysisResult := none }, [])

/-- A health body whose status field is the literal "healthy". -/
def healthyBody : Json := Json.obj [("status", Json.str "healthy")]

/-- Sample image used to instantiate the handler theorems. -/
def imgSample : ImageRef := { uri := "file:///tmp/x.jpg" }

/-- Sample screen state with `imgSample` selected. -/
def stateSample : UIState :=
  { selectedImage := some imgSample, isAnalyzing := false,
    analysisResult := none, apiAvailable := true }

/-- Sample environment: healthy service, readable file, 2xx analysis. -/
def envHealthy : Env :=
  { healthResp := .success 200 (some healthyBody),
    readFile := fun _ => Except.ok "QUJD",
    analyzeResp := .success 200 (some (Json.obj [("deepfake_probability", Json.num 12)])) }

/-- C1: `checkHealth` returns `true` if and only if the fetch completed
without transport error, the HTTP status is a success status, the body
decoded as JSON, and its `status` field equals the literal string
`"healthy"`; every other outcome yields `false` (the function is total:
no path throws). -/
theorem checkHealth_true_iff (resp : FetchResult) :
    checkHealth resp = true ↔
      ∃ status body, resp = FetchResult.success status (some body)
        ∧ statusOk status = true
        ∧ body.getField "status" = some (Json.str "healthy") := by
  cases resp with
  | fail e => simp [checkHealth]
  | success status body =>
    cases body with
    | none => simp [checkHealth]
    | some data =>
      by_cases hok : statusOk status = true
      · simp only [checkHealth, hok, if_true]
        cases hf : data.getField "status" with
        | none => simp [hf, hok]
        | some v =>
          cases v with
          | str s =>
            simp only [hf, beq_iff_eq]
            constructor
            · rintro rfl
              exact ⟨status, data, rfl, hok, hf⟩
            · rintro ⟨st, bd, heq, h2, hf2⟩
              rw [FetchResult.success.injEq, Option.some.injEq] at heq
              obtain ⟨rfl, rfl⟩ := heq
              rw [hf] at hf2
              simp only [Option.some.injEq, Json.str.injEq] at hf2
              exact hf2
          | null => simp [hf, hok]
          | bool b => simp [hf, hok]
          | num n => simp [hf, hok]
          | arr elems => simp [hf, hok]
          | obj fields => simp [hf, hok]
      · simp only [checkHealth, hok, if_false]
        simp only [Bool.false_eq_true] at hok
        simp [hok]

/-- C2: when the file read succeeds and the response is 2xx with a body
that decodes as JSON, `analyzeImage` returns exactly the decoded body,
with no validation of its fields (the body is universally quantified over
all JSON values). -/
theorem analyzeImage_success_returns_body (fsRead : String → Except String String)
    (uri b64 : String) (status : Nat) (j : Json)
    (hread : fsRead uri = Except.ok b64) (hok : statusOk status = true) :
    (analyzeImage fsRead uri (.success status (some j))).2 = .success j := by
  simp [analyzeImage, convertToBase64, hread, hok]

/-- Witness for C2 at a concrete readable file and a concrete 200
response. -/
theorem analyzeImage_success_returns_body_witness :
    (fun _ : String => Except.ok (ε := String) "QUJD") "file:///tmp/x.jpg" = Except.ok "QUJD"
    ∧ statusOk 200 = true
    ∧ (analyzeImage (fun _ => Except.ok "QUJD") "file:///tmp/x.jpg"
        (.success 200 (some (Json.obj [("verification_result", Json.str "ok")])))).2
      = .success (Json.obj [("verification_result", Json.str "ok")]) :=
  ⟨rfl, by decide,
   analyzeImage_success_returns_body _ "file:///tmp/x.jpg" "QUJD" 200 _ rfl (by decide)⟩

/-- Counterexample to C3 as stated: a 422 response whose body contains a
`detail` field holding the empty string.  JS `errorData.detail || ...`
treats the empty string as falsy, so the thrown message is the generic
one, not the (empty) detail string. -/
theorem analyzeImage_empty_detail_cex :
    (analyzeImage (fun _ => Except.ok "QUJD") "file:///tmp/x.jpg"
        (.success 422 (some (Json.obj [("detail", Json.str "")])))).2
      = .failure "Analysis failed: 422"
    ∧ (analyzeImage (fun _ => Except.ok "QUJD") "file:///tmp/x.jpg"
        (.success 422 (some (Json.obj [("detail", Json.str "")])))).2
      ≠ .failure "" := by
  have h1 : (analyzeImage (fun _ => Except.ok "QUJD") "file:///tmp/x.jpg"
      (.success 422 (some (Json.obj [("detail", Json.str "")])))).2
      = .failure "Analysis failed: 422" := by
    simp [analyzeImage, convertToBase64, statusOk, analyzeErrorMessage,
      Json.getField, lookupField, Json.truthy]
    decide
  refine ⟨h1, ?_⟩
  rw [h1]
  intro h
  exact absurd (AnalyzeOutcome.failure.inj h) (by decide)

/-- C3 amended: for a non-2xx response whose body is a JSON object whose
`detail` field holds a NON-EMPTY string, `analyzeImage` fails with exactly
that string as the message. -/
theorem analyzeImage_detail_message (fsRead : String → Except String String)
    (uri b64 : String) (status : Nat) (fields : List (String × Json)) (d : String)
    (hread : fsRead uri = Except.ok b64) (hok : statusOk status = false)
    (hd : lookupField fields "detail" = some (Json.str d)) (hne : d ≠ "") :
    (analyzeImage fsRead uri (.success status (some (Json.obj fields)))).2
      = .failure d := by
  simp [analyzeImage, convertToBase64, hread, hok, analyzeErrorMessage,
    Json.getField, hd, Json.truthy, Json.jsToString, hne]

/-- Witness for the amended C3 at a concrete 422 response with body
containing the non-empty detail string "bad image". -/
theorem analyzeImage_detail_message_witness :
    (fun _ : String => Except.ok (ε := String) "QUJD") "file:///tmp/x.jpg" = Except.ok "QUJD"
    ∧ statusOk 422 = false
    ∧ lookupField [("detail", Json.str "bad image")] "detail" = some (Json.str "bad image")
    ∧ "bad image" ≠ ""
    ∧ (analyzeImage (fun _ => Except.ok "QUJD") "file:///tmp/x.jpg"
        (.success 422 (some (Json.obj [("detail", Json.str "bad image")])))).2
      = .failure "bad image" :=
  ⟨rfl, by decide, by simp [lookupField], by decide,
   analyzeImage_detail_message _ "file:///tmp/x.jpg" "QUJD" 422 _ "bad image"
     rfl (by decide) (by simp [lookupField]) (by decide)⟩

/-- Counterexample to C4 as stated: a 500 response whose body decodes to
the JSON literal `null` is a parsed body lacking a `detail` field, yet
`errorData.detail` is then property access on `null`, which throws a
TypeError that `analyzeImage` rethrows — it does not fail with the generic
message carrying the status. -/
theorem analyzeImage_null_body_cex :
    (analyzeImage (fun _ => Except.ok "QUJD") "file:///tmp/x.jpg"
        (.success 500 (some Json.null))).2 = .typeError
    ∧ (analyzeImage (fun _ => Except.ok "QUJD") "file:///tmp/x.jpg"
        (.success 500 (some Json.null))).2
      ≠ .failure "Analysis failed: 500" := by
  have h1 : (analyzeImage (fun _ => Except.ok "QUJD") "file:///tmp/x.jpg"
      (.success 500 (some Json.null))).2 = .typeError := by
    simp [analyzeImage, convertToBase64, statusOk]
  refine ⟨h1, ?_⟩
  rw [h1]
  intro h
  cases h

/-- C4 amended: for a non-2xx response whose body either fails to decode
as JSON, or decodes to a value other than the JSON literal `null` that
lacks a `detail` field, `analyzeImage` fails with the generic message,
which mentions the numeric HTTP status (for a body decoding to `null`,
property access on `null` throws a TypeError instead). -/
theorem analyzeImage_generic_message (fsRead : String → Except String String)
    (uri b64 : String) (status : Nat) (body : Option Json)
    (hread : fsRead uri = Except.ok b64) (hok : statusOk status = false)
    (hnull : body.getD (Json.obj []) ≠ Json.null)
    (hd : (body.getD (Json.obj [])).getField "detail" = none) :
    (analyzeImage fsRead uri (.success status body)).2
        = .failure ("Analysis failed: " ++ toString status)
      ∧ ∃ s1 s2, "Analysis failed: " ++ toString status
        = s1 ++ toString status ++ s2 := by
  refine ⟨?_, "Analysis failed: ", "", by simp⟩
  cases hb : body.getD (Json.obj []) with
  | null => exact absurd hb hnull
  | bool b =>
    simp [analyzeImage, convertToBase64, hread, hok, hb, analyzeErrorMessage,
      hb ▸ hd]
  | num n =>
    simp [analyzeImage, convertToBase64, hread, hok, hb, analyzeErrorMessage,
      hb ▸ hd]
  | str s =>
    simp [analyzeImage, convertToBase64, hread, hok, hb, analyzeErrorMessage,
      hb ▸ hd]
  | arr elems =>
    simp [analyzeImage, convertToBase64, hread, hok, hb, analyzeErrorMessage,
      hb ▸ hd]
  | obj fields =>
    simp [analyzeImage, convertToBase64, hread, hok, hb, analyzeErrorMessage,
      hb ▸ hd]

/-- Witness for the amended C4 at a concrete 500 response with an
undecodable body. -/
theorem analyzeImage_generic_message_witness :
    (fun _ : String => Except.ok (ε := String) "QUJD") "file:///tmp/x.jpg" = Except.ok "QUJD"
    ∧ statusOk 500 = false
    ∧ (none : Option Json).getD (Json.obj []) ≠ Json.null
    ∧ ((none : Option Json).getD (Json.obj [])).getField "detail" = none
    ∧ ((analyzeImage (fun _ => Except.ok "QUJD") "file:///tmp/x.jpg"
          (.success 500 none)).2
        = .failure ("Analysis failed: " ++ toString 500)
      ∧ ∃ s1 s2, "Analysis failed: " ++ toString 500
        = s1 ++ toString 500 ++ s2) :=
  ⟨rfl, by decide, by simp, by simp [Json.getField, lookupField],
   analyzeImage_generic_message _ "file:///tmp/x.jpg" "QUJD" 500 none
     rfl (by decide) (by simp) (by simp [Json.getField, lookupField])⟩

/-- A string starting with `file://` is not the empty string, so the
truthiness guard on `uri` is subsumed by the prefix check. -/
theorem startsWith_file_ne_empty (uri : String)
    (h : uri.startsWith "file://" = true) : (uri == "") = false := by
  cases heq : uri == "" with
  | false => rfl
  | true =>
    have huri : uri = "" := by simpa using heq
    subst huri
    exact absurd h (by decide)

/-- C5: `deleteImage` attempts a filesystem deletion exactly when the URI
starts with `file://` (in particular it deletes for `file:///tmp/x.jpg`
and is a no-op for `https://example.com/x.jpg`), and it resolves with
`Except.ok ()` for every URI and every behaviour of the underlying
deletion — a rejection of `FileSystem.deleteAsync` is swallowed. -/
theorem deleteImage_spec (fsDelete : String → Except String Unit) (uri : String) :
    (deleteImage fsDelete uri).2 = Except.ok ()
    ∧ (deleteImage fsDelete uri).1
      = (if uri.startsWith "file://" then [uri] else []) := by
  cases hsw : uri.startsWith "file://" with
  | false => simp [deleteImage, hsw]
  | true =>
    have hne := startsWith_file_ne_empty uri hsw
    cases hdel : fsDelete uri <;> simp [deleteImage, hsw, hne, hdel]

/-- C6: on every run of the analyze handler with an image selected, the
first observable action is the `checkHealth` call; when it returns `false`
the handler shows the service-unavailable alert and never invokes
`analyzeImage`; a `deleteImage` deferral is scheduled exactly on the
successful-analysis path, on the selected image's URI, with the fixed
5000 ms delay — never on the health-abort or analysis-failure paths. -/
theorem handleAnalyze_orchestration (env : Env) (s : UIState) (img : ImageRef)
    (h : s.selectedImage = some img) :
    (handleAnalyze env s).2.head? = some UIEvent.healthCheckCalled
    ∧ (checkHealth env.healthResp = false →
        (handleAnalyze env s).2
          = [UIEvent.healthCheckCalled, UIEvent.alertServiceUnavailable]
        ∧ ∀ u, UIEvent.analyzeCalled u ∉ (handleAnalyze env s).2)
    ∧ (∀ j, (analyzeImage env.readFile img.uri env.analyzeResp).2
          = AnalyzeOutcome.success j →
        checkHealth env.healthResp = true →
        (handleAnalyze env s).2
          = [UIEvent.healthCheckCalled, UIEvent.analyzeCalled img.uri,
             UIEvent.scheduledDelete img.uri 5000])
    ∧ (∀ u d, UIEvent.scheduledDelete u d ∈ (handleAnalyze env s).2 →
        (∃ j, (analyzeImage env.readFile img.uri env.analyzeResp).2
            = AnalyzeOutcome.success j)
        ∧ u = img.uri ∧ d = 5000) := by
  cases hH : checkHealth env.healthResp with
  | false =>
    simp [handleAnalyze, h, hH]
  | true =>
    cases hA : (analyzeImage env.readFile img.uri env.analyzeResp).2 with
    | success j => simp [handleAnalyze, h, hH, hA]
    | failure m => simp [handleAnalyze, h, hH, hA]
    | typeError => simp [handleAnalyze, h, hH, hA]
    | jsonParseFailure => simp [handleAnalyze, h, hH, hA]
    | ioFailure e => simp [handleAnalyze, h, hH, hA]
    | fetchFailure e => simp [handleAnalyze, h, hH, hA]

/-- Witness for C6 at the sample state, image and healthy environment. -/
theorem handleAnalyze_orchestration_witness :
    stateSample.selectedImage = some imgSample
    ∧ ((handleAnalyze envHealthy stateSample).2.head?
        = some UIEvent.healthCheckCalled
      ∧ (checkHealth envHealthy.healthResp = false →
          (handleAnalyze envHealthy stateSample).2
            = [UIEvent.healthCheckCalled, UIEvent.alertServiceUnavailable]
          ∧ ∀ u, UIEvent.analyzeCalled u ∉ (handleAnalyze envHealthy stateSample).2)
      ∧ (∀ j, (analyzeImage envHealthy.readFile imgSample.uri envHealthy.analyzeResp).2
            = AnalyzeOutcome.success j →
          checkHealth envHealthy.healthResp = true →
          (handleAnalyze envHealthy stateSample).2
            = [UIEvent.healthCheckCalled, UIEvent.analyzeCalled imgSample.uri,
               UIEvent.scheduledDelete imgSample.uri 5000])
      ∧ (∀ u d, UIEvent.scheduledDelete u d ∈ (handleAnalyze envHealthy stateSample).2 →
          (∃ j, (analyzeImage envHealthy.readFile imgSample.uri envHealthy.analyzeResp).2
              = AnalyzeOutcome.success j)
          ∧ u = imgSample.uri ∧ d = 5000)) :=
  ⟨rfl, handleAnalyze_orchestration envHealthy stateSample imgSample rfl⟩

/-- C7: when the user cancels the picker or the camera, `pickImage` and
`captureImage` return `null` (here `Except.ok none`), and the UI handlers
leave the whole screen state — in particular `selectedImage` and
`analysisResult` — exactly as it was. -/
theorem cancelled_pick_leaves_state (res : PickerResult) (s : UIState)
    (hc : res.canceled = true) :
    pickImage .granted res = Except.ok none
    ∧ captureImage .granted res = Except.ok none
    ∧ (handlePickImage (pickImage .granted res) s).1 = s
    ∧ (handleCaptureImage (captureImage .granted res) s).1 = s := by
  simp [pickImage, captureImage, handlePickImage, handleCaptureImage, hc]

/-- Witness for C7 at a concrete cancelled picker invocation. -/
theorem cancelled_pick_leaves_state_witness :
    PickerResult.canceled { canceled := true, assets := [] } = true
    ∧ (pickImage .granted { canceled := true, assets := [] } = Except.ok none
      ∧ captureImage .granted { canceled := true, assets := [] } = Except.ok none
      ∧ (handlePickImage (pickImage .granted { canceled := true, assets := [] })
          stateSample).1 = stateSample
      ∧ (handleCaptureImage (captureImage .granted { canceled := true, assets := [] })
          stateSample).1 = stateSample) :=
  ⟨rfl, cancelled_pick_leaves_state { canceled := true, assets := [] } stateSample rfl⟩

/-- C8: in the select → analyze → clear sequence (a successful pick of
`img`, a run of the analyze handler in an environment where the health
check passes and the analysis succeeds, then the confirmed clear action),
the final state has `selectedImage = none` and `analysisResult = none`,
and the clear step invoked `deleteImage` with the previously selected
image's URI. -/
theorem select_analyze_clear (s0 : UIState) (img : ImageRef) (env : Env) (j : Json)
    (hH : checkHealth env.healthResp = true)
    (hA : (analyzeImage env.readFile img.uri env.analyzeResp).2
      = AnalyzeOutcome.success j) :
    (handleClearConfirm
        (handleAnalyze env (handlePickImage (Except.ok (some img)) s0).1).1).1.selectedImage
      = none
    ∧ (handleClearConfirm
        (handleAnalyze env (handlePickImage (Except.ok (some img)) s0).1).1).1.analysisResult
      = none
    ∧ (handleClearConfirm
        (handleAnalyze env (handlePickImage (Except.ok (some img)) s0).1).1).2
      = [UIEvent.deleteCalled img.uri] := by
  simp [handlePickImage, handleAnalyze, handleClearConfirm, hH, hA]

/-- Witness for C8 at the sample image, a fresh initial state and the
healthy environment. -/
theorem select_analyze_clear_witness :
    checkHealth envHealthy.healthResp = true
    ∧ (analyzeImage envHealthy.readFile imgSample.uri envHealthy.analyzeResp).2
      = AnalyzeOutcome.success (Json.obj [("deepfake_probability", Json.num 12)])
    ∧ ((handleClearConfirm
          (handleAnalyze envHealthy
            (handlePickImage (Except.ok (some imgSample))
              { selectedImage := none, isAnalyzing := false,
                analysisResult := none, apiAvailable := true }).1).1).1.selectedImage
        = none
      ∧ (handleClearConfirm
          (handleAnalyze envHealthy
            (handlePickImage (Except.ok (some imgSample))
              { selectedImage := none, isAnalyzing := false,
                analysisResult := none, apiAvailable := true }).1).1).1.analysisResult
        = none
      ∧ (handleClearConfirm
          (handleAnalyze envHealthy
            (handlePickImage (Except.ok (some imgSample))
              { selectedImage := none, isAnalyzing := false,
                analysisResult := none, apiAvailable := true }).1).1).2
        = [UIEvent.deleteCalled imgSample.uri]) :=
  ⟨by decide, rfl,
   select_analyze_clear
     { selectedImage := none, isAnalyzing := false,
       analysisResult := none, apiAvailable := true }
     imgSample envHealthy (Json.obj [("deepfake_probability", Json.num 12)])
     (by decide) rfl⟩

/-- C9: whenever `analyzeImage` sends a request, that request's
`mime_type` field is the constant string `"image/jpeg"`; and the analyze
handler's behaviour (its emitted actions) is independent of the selected
image's `mimeType` from the picker, which is never consulted — only the
URI is passed to `analyzeImage`. -/
theorem analyzeImage_mime_type_constant :
    (∀ (fsRead : String → Except String String) (uri : String)
        (resp : FetchResult) (req : AnalyzeRequest),
      (analyzeImage fsRead uri resp).1 = some req → req.mime_type = "image/jpeg")
    ∧ (∀ (env : Env) (s : UIState) (img : ImageRef) (m : Option String),
      (handleAnalyze env { s with selectedImage := some { img with mimeType := m } }).2
        = (handleAnalyze env { s with selectedImage := some img }).2) := by
  constructor
  · intro fsRead uri resp req h
    unfold analyzeImage at h
    cases hr : convertToBase64 fsRead uri with
    | error e => rw [hr] at h; simp at h
    | ok b64 =>
      rw [hr] at h
      cases resp with
      | fail e =>
        simp only [Option.some.injEq] at h
        rw [← h]
      | success status body =>
        by_cases hok : statusOk status = true
        · simp only [hok, if_true] at h
          cases body with
          | some result => simp only [Option.some.injEq] at h; rw [← h]
          | none => simp only [Option.some.injEq] at h; rw [← h]
        · have hok2 : statusOk status = false := by rwa [Bool.not_eq_true] at hok
          simp only [hok2, Bool.false_eq_true, if_false] at h
          cases hb : body.getD (Json.obj []) <;> rw [hb] at h <;>
            simp only [Option.some.injEq] at h <;> rw [← h]
  · intro env s img m
    cases hH : checkHealth env.healthResp with
    | false => simp [handleAnalyze, hH]
    | true =>
      cases hA : (analyzeImage env.readFile img.uri env.analyzeResp).2 with
      | success j => simp [handleAnalyze, hH, hA]
      | failure msg => simp [handleAnalyze, hH, hA]
      | typeError => simp [handleAnalyze, hH, hA]
      | jsonParseFailure => simp [handleAnalyze, hH, hA]
      | ioFailure e => simp [handleAnalyze, hH, hA]
      | fetchFailure e => simp [handleAnalyze, hH, hA]

/-- Witness for C9: a concrete request extracted from a concrete call has
`mime_type = "image/jpeg"`, and two sample images differing only in their
picker `mimeType` drive the analyze handler identically. -/
theorem analyzeImage_mime_type_constant_witness :
    (analyzeImage (fun _ => Except.ok "QUJD") "file:///tmp/x.jpg" (.fail "network down")).1
      = some { image_base64 := "QUJD", mime_type := "image/jpeg" }
    ∧ AnalyzeRequest.mime_type { image_base64 := "QUJD", mime_type := "image/jpeg" }
      = "image/jpeg"
    ∧ (handleAnalyze envHealthy
        { stateSample with selectedImage := some { imgSample with mimeType := some "image/png" } }).2
      = (handleAnalyze envHealthy
        { stateSample with selectedImage := some imgSample }).2 :=
  ⟨rfl,
   analyzeImage_mime_type_constant.1 (fun _ => Except.ok "QUJD") "file:///tmp/x.jpg"
     (.fail "network down") _ rfl,
   analyzeImage_mime_type_constant.2 envHealthy stateSample imgSample (some "image/png")⟩

/-- C10: a non-null pick or capture sets `selectedImage` to the returned
image and resets `analysisResult` to `none` in the same step, and the
analyze handler (which also clears `analysisResult` before starting)
preserves the selected image and only ever stores a result produced by
analyzing that image's URI — so a displayed result always corresponds to
the currently selected image. -/
theorem analysisResult_matches_selected (s : UIState) (img : ImageRef) (env : Env) :
    (handlePickImage (Except.ok (some img)) s).1
      = { s with selectedImage := some img, analysisResult := none }
    ∧ (handleCaptureImage (Except.ok (some img)) s).1
      = { s with selectedImage := some img, analysisResult := none }
    ∧ (s.selectedImage = some img →
        (handleAnalyze env s).1.selectedImage = some img
        ∧ ∀ j, (handleAnalyze env s).1.analysisResult = some j →
            (analyzeImage env.readFile img.uri env.analyzeResp).2
              = AnalyzeOutcome.success j) := by
  refine ⟨rfl, rfl, ?_⟩
  intro h
  cases hH : checkHealth env.healthResp with
  | false => simp [handleAnalyze, h, hH]
  | true =>
    cases hA : (analyzeImage env.readFile img.uri env.analyzeResp).2 with
    | success j => simp [handleAnalyze, h, hH, hA]
    | failure m => simp [handleAnalyze, h, hH, hA]
    | typeError => simp [handleAnalyze, h, hH, hA]
    | jsonParseFailure => simp [handleAnalyze, h, hH, hA]
    | ioFailure e => simp [handleAnalyze, h, hH, hA]
    | fetchFailure e => simp [handleAnalyze, h, hH, hA]

/-- Witness for C10 at the sample state, image and healthy environment:
the hypotheses are discharged at concrete values, and the analyze handler
is observed storing exactly the result of analyzing the selected image. -/
theorem analysisResult_matches_selected_witness :
    stateSample.selectedImage = some imgSample
    ∧ (handlePickImage (Except.ok (some imgSample)) stateSample).1
      = { stateSample with selectedImage := some imgSample, analysisResult := none }
    ∧ (handleAnalyze envHealthy stateSample).1.selectedImage = some imgSample
    ∧ (handleAnalyze envHealthy stateSample).1.analysisResult
      = some (Json.obj [("deepfake_probability", Json.num 12)])
    ∧ (analyzeImage envHealthy.readFile imgSample.uri envHealthy.analyzeResp).2
      = AnalyzeOutcome.success (Json.obj [("deepfake_probability", Json.num 12)]) :=
  ⟨rfl,
   (analysisResult_matches_selected stateSample imgSample envHealthy).1,
   ((analysisResult_matches_selected stateSample imgSample envHealthy).2.2 rfl).1,
   rfl,
   ((analysisResult_matches_selected stateSample imgSample envHealthy).2.2 rfl).2
     (Json.obj [("deepfake_probability", Json.num 12)]) rfl⟩
